import Mathlib

/-!
# Verification of the sustainability-dashboard data pipeline

Shallow embedding of `home.py`: the join/explode engine (`merge_data`),
the filter engine (`filtered_data`), and the nine aggregation/reshape
transforms (tabs 1–9), together with theorems settling the specification
claims about them.

Tables are lists of typed rows.  A pandas `NaN` department is `Option.none`.
The faculty `article_number` column is modelled by `ArtCell`, which records
the three states a cell can be in: the original delimited string, the list
produced by `str.split`, and `NaN` (what `.str` accessors yield on
non-string values).  A pandas operation that raises is modelled by
`Option.none` at the table level.
-/

set_option autoImplicit false

namespace SustainabilityDashboard

/-- One row of `keywords.tsv`: an article with its publication year and the
17 goal keyword-match counts (`goals.getD i 0` is column `goal(i+1)`). -/
structure KwRow where
  article_number : Int
  publication_year : Int
  goals : List Nat
deriving DecidableEq, Repr

/-- A cell of the faculty table's `article_number` column. -/
inductive ArtCell where
  | strCell : String → ArtCell
  | listCell : List String → ArtCell
  | naCell : ArtCell
deriving DecidableEq, Repr

/-- One row of `faculty.tsv`. -/
structure FacRow where
  department : String
  article_number : ArtCell
deriving DecidableEq, Repr

/-- One row of the flat joined table produced by `merge_data`.  The
`department` is `none` for keyword rows with no faculty match (left-join
null). -/
structure FlatRow where
  article_number : Int
  publication_year : Int
  goals : List Nat
  department : Option String
deriving DecidableEq, Repr

/-- Split a character list at every occurrence of the two-character
separator `", "`, accumulating the current token in reverse. -/
def split_cs : List Char → List Char → List (List Char)
  | [], acc => [acc.reverse]
  | [c], acc => [(c :: acc).reverse]
  | c1 :: c2 :: rest, acc =>
    if c1 = ',' ∧ c2 = ' ' then acc.reverse :: split_cs rest []
    else split_cs (c2 :: rest) (c1 :: acc)

/-- Python `s.split(", ")`: the `", "`-separated tokens of `s` (always at
least one token; an empty string gives `[""]`). -/
def py_split (s : String) : List String :=
  (split_cs s.data []).map fun l => ⟨l⟩

/-- `home.py` line 15: `faculty_data["article_number"].str.split(", ")`.
A string cell becomes the list of its `", "`-separated tokens; `.str`
accessors applied to a non-string cell (a list from an earlier call, or
`NaN`) yield `NaN`. -/
def split_cell : ArtCell → ArtCell
  | .strCell s => .listCell (py_split s)
  | _ => .naCell

/-- Accumulate the value of a decimal digit string; `none` on the first
non-digit character. -/
def digits_val : List Char → Nat → Option Nat
  | [], acc => some acc
  | c :: rest, acc =>
    if c.isDigit then digits_val rest (acc * 10 + (c.toNat - '0'.toNat)) else none

/-- Python `int(token)` on one token: `some` when the token is an
optionally signed decimal integer literal, `none` (a raised `ValueError`)
otherwise. -/
def parse_int (s : String) : Option Int :=
  match s.data with
  | [] => none
  | '-' :: rest => if rest = [] then none else (digits_val rest 0).map fun n => -(n : Int)
  | '+' :: rest => if rest = [] then none else (digits_val rest 0).map fun n => (n : Int)
  | l => (digits_val l 0).map fun n => (n : Int)

/-- `home.py` line 16: `.explode("article_number").dropna()`.  A list cell
contributes one `(department, token)` row per token; an empty list explodes
to a `NaN` row and a `NaN` cell stays `NaN`, and `dropna` removes both. -/
def explode_tokens (fac : List FacRow) : List (String × String) :=
  fac.flatMap fun r =>
    match r.article_number with
    | .listCell l => l.map fun t => (r.department, t)
    | _ => []

/-- `home.py` line 17: `.astype(int)` — element-wise `int(token)`; the
first unparseable token raises, aborting the whole conversion (`none`). -/
def traverse_tokens : List (String × String) → Option (List (String × Int))
  | [] => some []
  | p :: t =>
    match parse_int p.2 with
    | none => none
    | some n =>
      match traverse_tokens t with
      | none => none
      | some rest => some ((p.1, n) :: rest)

/-- The exploded, integer-typed faculty table (`faculty_exploded` in
`home.py`), or `none` when `astype(int)` raises. -/
def faculty_exploded (fac : List FacRow) : Option (List (String × Int)) :=
  traverse_tokens (explode_tokens fac)

/-- `home.py` lines 19–21: `pd.merge(keywords_data, faculty_exploded,
on="article_number", how="left")`.  Every keyword row is preserved: with no
faculty match it yields one row with null department, otherwise one row per
matching faculty entry. -/
def left_merge (kw : List KwRow) (fac : List (String × Int)) : List FlatRow :=
  kw.flatMap fun k =>
    let ms := fac.filter fun p => decide (p.2 = k.article_number)
    if ms.isEmpty then [⟨k.article_number, k.publication_year, k.goals, none⟩]
    else ms.map fun p => ⟨k.article_number, k.publication_year, k.goals, some p.1⟩

/-- `merge_data` (`home.py` lines 14–22).  Line 15 assigns the split column
back into the caller's `faculty_data`, so the function returns both the
merge result (`none` when `astype(int)` raises) and the mutated faculty
table. -/
def merge_data (keywords_data : List KwRow) (faculty_data : List FacRow) :
    Option (List FlatRow) × List FacRow :=
  let fac' := faculty_data.map fun r => ⟨r.department, split_cell r.article_number⟩
  match faculty_exploded fac' with
  | none => (none, fac')
  | some fe => (some (left_merge keywords_data fe), fac')

/-! ## Filter engine -/

/-- `home.py` lines 116–119: a row of the flat table survives iff its
department is a member of the current selection (pandas `isin`; a null
department matches when the selection contains the null value) and its
publication year lies in the slider's inclusive range (`between`). -/
def filtered_data (merged : List FlatRow) (selected_departments : List (Option String))
    (yearLo yearHi : Int) : List FlatRow :=
  merged.filter fun r =>
    selected_departments.contains r.department &&
      (decide (yearLo ≤ r.publication_year) && decide (r.publication_year ≤ yearHi))

/-! ## Sorting helpers (pandas `groupby`/`sort_values` key ordering) -/

/-- Insert `a` into `l` before the first element `b` with `le a b`. -/
def insertLe {α : Type} (le : α → α → Bool) (a : α) : List α → List α
  | [] => [a]
  | b :: t => if le a b then a :: b :: t else b :: insertLe le a t

/-- Insertion sort by the boolean relation `le`. -/
def sortLe {α : Type} (le : α → α → Bool) : List α → List α
  | [] => []
  | a :: t => insertLe le a (sortLe le t)

/-! ## Aggregation/reshape engine: the nine tab transforms -/

/-- Column-wise sum of goal column `g` over a table (the reference value
that tab 1 is supposed to compute). -/
def column_sum (t : List FlatRow) (g : Nat) : Nat :=
  (t.map fun r => r.goals.getD g 0).sum

/-- Tab 1 (`home.py` lines 144–147): `filtered_data[selected_goals].sum()`
followed by `reset_index` — one `(goal, total)` row per selected goal, the
total accumulated column-wise over the rows. -/
def goal_distribution (t : List FlatRow) (selected_goals : List Nat) : List (Nat × Nat) :=
  selected_goals.map fun g => (g, t.foldl (fun acc r => acc + r.goals.getD g 0) 0)

/-- The sorted distinct non-null departments of a table: the group keys
produced by `groupby("department")` (pandas drops the `NaN` group and
sorts the remaining keys). -/
def dept_keys (t : List FlatRow) : List String :=
  sortLe (fun a b => decide (a ≤ b)) (t.filterMap fun r => r.department).dedup

/-- The sorted distinct publication years: group keys of
`groupby("publication_year")`. -/
def year_keys (t : List FlatRow) : List Int :=
  sortLe (fun a b => decide (a ≤ b)) (t.map fun r => r.publication_year).dedup

/-- Sum of goal column `g` over the rows of department `d` (one cell of
`groupby("department")[selected_goals].sum()`). -/
def dept_goal_sum (t : List FlatRow) (d : String) (g : Nat) : Nat :=
  ((t.filter fun r => decide (r.department = some d)).map fun r => r.goals.getD g 0).sum

/-- Sum of goal column `g` over the rows of year `y` (one cell of
`groupby("publication_year")[selected_goals].sum()`). -/
def year_goal_sum (t : List FlatRow) (y : Int) (g : Nat) : Nat :=
  ((t.filter fun r => decide (r.publication_year = y)).map fun r => r.goals.getD g 0).sum

/-- Tab 2 (`home.py` lines 160–171): group by year, sum the selected goal
columns, melt wide→long into `(year, goal, matches)` rows. -/
def goal_year_data_melted (t : List FlatRow) (gs : List Nat) : List (Int × Nat × Nat) :=
  gs.flatMap fun g => (year_keys t).map fun y => (y, g, year_goal_sum t y g)

/-- Tab 3 (`home.py` lines 185–196): group by department, sum the selected
goal columns, melt into `(department, goal, matches)` rows. -/
def dept_goal_focus_melted (t : List FlatRow) (gs : List Nat) : List (String × Nat × Nat) :=
  gs.flatMap fun g => (dept_keys t).map fun d => (d, g, dept_goal_sum t d g)

/-- Tab 4 (`home.py` lines 211–212):
`filtered_data["department"].value_counts()` — one `(department, count)`
row per distinct non-null department (pandas `value_counts` drops `NaN`),
sorted by count descending. -/
def dept_article_distribution (t : List FlatRow) : List (String × Nat) :=
  sortLe (fun p q => decide (q.2 ≤ p.2))
    ((t.filterMap fun r => r.department).dedup.map fun d =>
      (d, t.countP fun r => decide (r.department = some d)))

/-- Tab 5 (`home.py` lines 227–243): per selected goal, departments with
that goal's sums, sorted ascending by total. -/
def top_departments (t : List FlatRow) (gs : List Nat) : List (Nat × List (String × Nat)) :=
  gs.map fun g =>
    (g, sortLe (fun p q => decide (p.2 ≤ q.2))
      ((dept_keys t).map fun d => (d, dept_goal_sum t d g)))

/-- A pandas float cell as produced by an element-wise division: a finite
value, `NaN` (`0/0`), or `inf` (`x/0` with `x ≠ 0`).  Division never
raises. -/
inductive PdFloat where
  | val : ℚ → PdFloat
  | nan : PdFloat
  | inf : PdFloat
deriving DecidableEq, Repr

/-- Pandas element-wise float division. -/
def pdiv (a b : ℚ) : PdFloat :=
  if b = 0 then (if a = 0 then .nan else .inf) else .val (a / b)

/-- Tab 6 (`home.py` lines 262, 275–277): each department's grand total
over the selected goals (`dept_goal_total[selected_goals].sum(axis=1)`). -/
def dept_total (t : List FlatRow) (gs : List Nat) (d : String) : Nat :=
  (gs.map fun g => dept_goal_sum t d g).sum

/-- Tab 6 (`home.py` lines 259–277): group by department, sum the selected
goals, melt, and divide each `(department, goal)` sum by the department's
grand total. -/
def dept_goal_melted (t : List FlatRow) (gs : List Nat) : List (String × Nat × PdFloat) :=
  gs.flatMap fun g => (dept_keys t).map fun d =>
    (d, g, pdiv (dept_goal_sum t d g) (dept_total t gs d))

/-- Tab 7 (`home.py` lines 324–337): restrict to one department (`==`
comparison, so null departments never match), group by year, sum, melt. -/
def dept_goal_year_melted (t : List FlatRow) (gs : List Nat) (d : String) :
    List (Int × Nat × Nat) :=
  let dd := t.filter fun r => decide (r.department = some d)
  gs.flatMap fun g => (year_keys dd).map fun y => (y, g, year_goal_sum dd y g)

/-! ## The shared filtered table as mutated by tabs 8 and 9

Tabs 8 and 9 assign `filtered_data[f"goal_bool"] = filtered_data[goal] > 0`
directly on the shared `filtered_data` object, so the table is a pair of its
rows and the boolean columns written into it so far (`bool_cols` keyed by
goal index; an existing column is overwritten in place, a new one is
appended). -/

/-- The shared filtered table object: its rows plus any derived boolean
columns assigned into it by tab 8 / tab 9. -/
structure Table where
  rows : List FlatRow
  bool_cols : List (Nat × List Bool)
deriving DecidableEq, Repr

/-- `filtered_data[goal] > 0` for one row: the value written into the
boolean column. -/
def has_match (r : FlatRow) (g : Nat) : Bool :=
  decide (0 < r.goals.getD g 0)

/-- First column with the given key in a column list. -/
def lookup_col : List (Nat × List Bool) → Nat → Option (List Bool)
  | [], _ => none
  | p :: t, g => if p.1 = g then some p.2 else lookup_col t g

/-- Whether a column with the given key is present. -/
def has_col : List (Nat × List Bool) → Nat → Bool
  | [], _ => false
  | p :: t, g => decide (p.1 = g) || has_col t g

/-- Read back a boolean column, `none` when it was never assigned. -/
def get_bool_col (t : Table) (g : Nat) : Option (List Bool) :=
  lookup_col t.bool_cols g

/-- One column assignment `filtered_data[bool_col] = ...`: overwrite in
place when the column exists, append it otherwise. -/
def set_bool_col (t : Table) (g : Nat) (vals : List Bool) : Table :=
  if has_col t.bool_cols g then
    ⟨t.rows, t.bool_cols.map fun p => if p.1 = g then (g, vals) else p⟩
  else
    ⟨t.rows, t.bool_cols ++ [(g, vals)]⟩

/-- The `for goal in selected_goals` assignment loop shared by tab 8
(`home.py` lines 356–358) and tab 9 (lines 400–402). -/
def assign_bools (t : Table) (gs : List Nat) : Table :=
  gs.foldl (fun acc g => set_bool_col acc g (acc.rows.map fun r => has_match r g)) t

/-- Tab 8 melt of one boolean column: pandas pairs the id column
(`publication_year`) with the column values positionally. -/
def melt_year_bool (t : Table) (g : Nat) : List (Int × Nat × Bool) :=
  (List.zip (t.rows.map fun r => r.publication_year) ((get_bool_col t g).getD [])).map
    fun p => (p.1, g, p.2)

/-- Tab 8 melt (`home.py` lines 362–367): one output row per value column
(in `selected_goals` order) per table row. -/
def tab8_melted (t : Table) (gs : List Nat) : List (Int × Nat × Bool) :=
  gs.flatMap fun g => melt_year_bool t g

/-- Tab 8 after the `Has_Match == True` filter (`home.py` line 375),
projected to the groupby keys `(publication_year, goal)`.  `t0` is the
table state on entry to tab 8. -/
def tab8_surviving (t0 : Table) (gs : List Nat) : List (Int × Nat) :=
  ((tab8_melted (assign_bools t0 gs) gs).filter fun e => e.2.2).map fun e => (e.1, e.2.1)

/-- Number of surviving melted rows for one `(year, goal)` group of tab 8's
`groupby(["publication_year", "Goal"]).size()`. -/
def bubble_count (t0 : Table) (gs : List Nat) (y : Int) (g : Nat) : Nat :=
  (tab8_surviving t0 gs).countP fun e => decide (e = (y, g))

/-- Tab 8 result (`home.py` lines 378–382): the `(year, goal)` groups with
their sizes, keys sorted. -/
def bubble_data (t0 : Table) (gs : List Nat) : List ((Int × Nat) × Nat) :=
  (sortLe (fun a b => decide (a.1 < b.1 ∨ (a.1 = b.1 ∧ a.2 ≤ b.2)))
      (tab8_surviving t0 gs).dedup).map
    fun k => (k, bubble_count t0 gs k.1 k.2)

/-- Tab 9 melt of one boolean column, with id columns
`(article_number, department)` (`home.py` lines 406–411). -/
def melt_art_dept_bool (t : Table) (g : Nat) : List ((Int × Option String) × Nat × Bool) :=
  (List.zip (t.rows.map fun r => (r.article_number, r.department))
      ((get_bool_col t g).getD [])).map
    fun p => (p.1, g, p.2)

/-- Tab 9 melt over all selected goals. -/
def tab9_melted (t : Table) (gs : List Nat) : List ((Int × Option String) × Nat × Bool) :=
  gs.flatMap fun g => melt_art_dept_bool t g

/-- Tab 9 survivors of the `Has_Match == True` filter, projected to the
groupby keys `(department, goal)`.  `t1` is the table state on entry to
tab 9 (after tab 8's assignments). -/
def tab9_surviving (t1 : Table) (gs : List Nat) : List (Option String × Nat) :=
  ((tab9_melted (assign_bools t1 gs) gs).filter fun e => e.2.2).map fun e => (e.1.2, e.2.1)

/-- Size of one `(department, goal)` group of tab 9's
`groupby(["department", "Goal"]).size()`. -/
def treemap_count (t1 : Table) (gs : List Nat) (d : String) (g : Nat) : Nat :=
  (tab9_surviving t1 gs).countP fun e => decide (e = (some d, g))

/-- Tab 9 result (`home.py` lines 422–424): the `(department, goal)` groups
with their sizes; pandas `groupby` drops melted rows whose department is
null, so keys are the distinct non-null `(department, goal)` pairs. -/
def treemap_data (t1 : Table) (gs : List Nat) : List ((String × Nat) × Nat) :=
  (sortLe (fun a b => decide (a.1 < b.1 ∨ (a.1 = b.1 ∧ a.2 ≤ b.2)))
      ((tab9_surviving t1 gs).filterMap fun e => e.1.map fun d => (d, e.2)).dedup).map
    fun k => (k, treemap_count t1 gs k.1 k.2)

/-! ## The per-rerun view pipeline -/

/-- The nine summary tables, one per tab. -/
structure Views where
  goal_totals : List (Nat × Nat)
  goal_by_year : List (Int × Nat × Nat)
  goal_by_dept : List (String × Nat × Nat)
  dept_articles : List (String × Nat)
  top_depts : List (Nat × List (String × Nat))
  goal_proportions : List (String × Nat × PdFloat)
  dept_over_time : String → List (Int × Nat × Nat)
  bubble : List ((Int × Nat) × Nat)
  treemap : List ((String × Nat) × Nat)

/-- One script rerun after the filter widgets (`home.py` lines 116–433):
compute `filtered_data`, then — guard at lines 122–124 — if no goal is
selected show `st.error` and `st.stop()` (no summary table is built);
otherwise build the nine summary tables, threading the shared filtered
table through tab 8's and tab 9's boolean-column assignments.  The returned
`Table` is the final state of `filtered_data` (what line 438 downloads). -/
def run_dashboard (merged : List FlatRow) (selected_departments : List (Option String))
    (yearLo yearHi : Int) (selected_goals : List Nat) :
    Except String (Views × Table) :=
  let fd := filtered_data merged selected_departments yearLo yearHi
  if selected_goals.isEmpty then
    Except.error "Please select at least one Sustainability Goal."
  else
    let t0 : Table := ⟨fd, []⟩
    let t8 := assign_bools t0 selected_goals
    let t9 := assign_bools t8 selected_goals
    Except.ok
      (⟨goal_distribution fd selected_goals,
        goal_year_data_melted fd selected_goals,
        dept_goal_focus_melted fd selected_goals,
        dept_article_distribution fd,
        top_departments fd selected_goals,
        dept_goal_melted fd selected_goals,
        fun d => dept_goal_year_melted fd selected_goals d,
        bubble_data t0 selected_goals,
        treemap_data t8 selected_goals⟩, t9)

/-! ## Basic lemmas about the join/explode engine -/

theorem traverse_tokens_eq_none {l : List (String × String)} {p : String × String}
    (hp : p ∈ l) (hfail : parse_int p.2 = none) :
    traverse_tokens l = none := by
  induction l with
  | nil => cases hp
  | cons a t ih =>
    rcases List.mem_cons.mp hp with h | h
    · subst h
      simp [traverse_tokens, hfail]
    · unfold traverse_tokens
      cases hpa : parse_int a.2 with
      | none => rfl
      | some n => rw [ih h]

theorem left_merge_length (kw : List KwRow) (fac : List (String × Int)) :
    (left_merge kw fac).length =
      (kw.map fun k => max 1 (fac.countP fun p => decide (p.2 = k.article_number))).sum := by
  induction kw with
  | nil => rfl
  | cons k t ih =>
    simp only [left_merge, List.flatMap_cons, List.length_append, List.map_cons, List.sum_cons]
    rw [← left_merge]
    rw [ih]
    congr 1
    by_cases h : (fac.filter fun p => decide (p.2 = k.article_number)).isEmpty
    · rw [if_pos h]
      have : fac.countP (fun p => decide (p.2 = k.article_number)) = 0 := by
        rw [List.countP_eq_length_filter]
        exact List.isEmpty_iff_length_eq_zero.mp h
      simp [this]
    · rw [if_neg h]
      rw [List.length_map, List.countP_eq_length_filter]
      have hlen : 0 < (fac.filter fun p => decide (p.2 = k.article_number)).length := by
        cases hf : (fac.filter fun p => decide (p.2 = k.article_number)) with
        | nil => exact absurd (by rw [hf]; rfl) h
        | cons a l => simp [hf]
      omega

theorem left_merge_nil_fac (kw : List KwRow) :
    left_merge kw [] =
      kw.map fun k => ⟨k.article_number, k.publication_year, k.goals, none⟩ := by
  induction kw with
  | nil => rfl
  | cons k t ih =>
    simp only [left_merge, List.flatMap_cons] at *
    rw [ih]
    rfl

theorem length_le_sum_map_max_one (kw : List KwRow) (f : KwRow → Nat) :
    kw.length ≤ (kw.map fun k => max 1 (f k)).sum := by
  induction kw with
  | nil => simp
  | cons k t ih =>
    simp only [List.map_cons, List.sum_cons, List.length_cons]
    omega

theorem mem_insertLe {α : Type} (le : α → α → Bool) (a x : α) (l : List α) :
    x ∈ insertLe le a l ↔ x = a ∨ x ∈ l := by
  induction l with
  | nil => simp [insertLe]
  | cons b t ih =>
    by_cases h : le a b
    · simp [insertLe, h]
    · simp only [insertLe, if_neg h, List.mem_cons, ih]
      tauto

theorem mem_sortLe {α : Type} (le : α → α → Bool) (x : α) (l : List α) :
    x ∈ sortLe le l ↔ x ∈ l := by
  induction l with
  | nil => simp [sortLe]
  | cons a t ih =>
    simp only [sortLe, mem_insertLe, List.mem_cons, ih]

theorem length_insertLe {α : Type} (le : α → α → Bool) (a : α) (l : List α) :
    (insertLe le a l).length = l.length + 1 := by
  induction l with
  | nil => rfl
  | cons b t ih =>
    by_cases h : le a b
    · simp [insertLe, h]
    · simp [insertLe, h, ih]

theorem length_sortLe {α : Type} (le : α → α → Bool) (l : List α) :
    (sortLe le l).length = l.length := by
  induction l with
  | nil => rfl
  | cons a t ih => simp [sortLe, length_insertLe, ih]

/-! ## Lemmas about the boolean-column assignments -/

theorem rows_set_bool_col (t : Table) (g : Nat) (v : List Bool) :
    (set_bool_col t g v).rows = t.rows := by
  unfold set_bool_col
  split <;> rfl

theorem rows_assign_bools (t : Table) (gs : List Nat) :
    (assign_bools t gs).rows = t.rows := by
  induction gs generalizing t with
  | nil => rfl
  | cons g gs ih =>
    show (assign_bools (set_bool_col t g (t.rows.map fun r => has_match r g)) gs).rows = t.rows
    rw [ih, rows_set_bool_col]

theorem lookup_col_overwrite (l : List (Nat × List Bool)) (g : Nat) (v : List Bool)
    (h : has_col l g = true) :
    lookup_col (l.map fun p => if p.1 = g then (g, v) else p) g = some v := by
  induction l with
  | nil => simp [has_col] at h
  | cons a t ih =>
    by_cases hag : a.1 = g
    · simp [lookup_col, hag]
    · have h' : has_col t g = true := by
        simp [has_col, hag] at h
        exact h
      simp [lookup_col, hag, ih h']

theorem lookup_col_overwrite_ne (l : List (Nat × List Bool)) (g g' : Nat) (v : List Bool)
    (h : g' ≠ g) :
    lookup_col (l.map fun p => if p.1 = g then (g, v) else p) g' = lookup_col l g' := by
  induction l with
  | nil => rfl
  | cons a t ih =>
    by_cases hag : a.1 = g
    · have hgg : ¬(g = g') := fun e => h e.symm
      have hag' : ¬(a.1 = g') := fun e => h (e.symm.trans hag)
      simp [lookup_col, hag, hgg, hag', ih]
    · simp only [List.map_cons, if_neg hag]
      by_cases hag' : a.1 = g'
      · simp [lookup_col, hag']
      · simp [lookup_col, hag', ih]

theorem lookup_col_append_new (l : List (Nat × List Bool)) (g : Nat) (v : List Bool)
    (h : has_col l g = false) :
    lookup_col (l ++ [(g, v)]) g = some v := by
  induction l with
  | nil => simp [lookup_col]
  | cons a t ih =>
    simp only [has_col, Bool.or_eq_false_iff, decide_eq_false_iff_not] at h
    simp [lookup_col, h.1, ih h.2]

theorem lookup_col_append_other (l : List (Nat × List Bool)) (g g' : Nat) (v : List Bool)
    (h : g' ≠ g) :
    lookup_col (l ++ [(g, v)]) g' = lookup_col l g' := by
  induction l with
  | nil =>
    have : ¬(g = g') := fun e => h e.symm
    simp [lookup_col, this]
  | cons a t ih =>
    by_cases hag : a.1 = g'
    · simp [lookup_col, hag]
    · simp [lookup_col, hag, ih]

theorem get_set_bool_col_self (t : Table) (g : Nat) (v : List Bool) :
    get_bool_col (set_bool_col t g v) g = some v := by
  unfold get_bool_col set_bool_col
  by_cases h : has_col t.bool_cols g
  · rw [if_pos h]
    exact lookup_col_overwrite _ _ _ h
  · rw [if_neg h]
    exact lookup_col_append_new _ _ _ (Bool.not_eq_true _ ▸ h)

theorem get_set_bool_col_ne (t : Table) (g g' : Nat) (v : List Bool) (h : g' ≠ g) :
    get_bool_col (set_bool_col t g v) g' = get_bool_col t g' := by
  unfold get_bool_col set_bool_col
  by_cases hc : has_col t.bool_cols g
  · rw [if_pos hc]
    exact lookup_col_overwrite_ne _ _ _ _ h
  · rw [if_neg hc]
    exact lookup_col_append_other _ _ _ _ h

theorem get_assign_bools_of_not_mem (t : Table) (gs : List Nat) (g : Nat) (h : g ∉ gs) :
    get_bool_col (assign_bools t gs) g = get_bool_col t g := by
  induction gs generalizing t with
  | nil => rfl
  | cons a gs ih =>
    have hga : g ≠ a := fun e => h (e ▸ List.mem_cons_self a gs)
    show get_bool_col (assign_bools (set_bool_col t a (t.rows.map fun r => has_match r a)) gs) g = _
    rw [ih _ fun hm => h (List.mem_cons_of_mem _ hm)]
    exact get_set_bool_col_ne _ _ _ _ hga

theorem get_assign_bools_of_mem (t : Table) (gs : List Nat) (g : Nat) (h : g ∈ gs) :
    get_bool_col (assign_bools t gs) g = some (t.rows.map fun r => has_match r g) := by
  induction gs generalizing t with
  | nil => cases h
  | cons a gs ih =>
    show get_bool_col (assign_bools (set_bool_col t a (t.rows.map fun r => has_match r a)) gs) g = _
    by_cases hg : g ∈ gs
    · rw [ih _ hg, rows_set_bool_col]
    · have hga : g = a := by
        rcases List.mem_cons.mp h with h1 | h1
        · exact h1
        · exact absurd h1 hg
      subst hga
      rw [get_assign_bools_of_not_mem _ _ _ hg, get_set_bool_col_self]

/-! ## Lemmas about the tab 8 melt and group sizes -/

theorem melt_year_bool_assign (t0 : Table) (gs : List Nat) (g : Nat) (h : g ∈ gs) :
    melt_year_bool (assign_bools t0 gs) g =
      t0.rows.map fun r => (r.publication_year, g, has_match r g) := by
  unfold melt_year_bool
  rw [get_assign_bools_of_mem _ _ _ h, rows_assign_bools]
  simp [List.zip_map', List.map_map]

theorem sum_map_eq_length_mul {α : Type} (l : List α) (f : α → Nat) (c : Nat)
    (h : ∀ x ∈ l, f x = c) : (l.map f).sum = l.length * c := by
  induction l with
  | nil => simp
  | cons a t ih =>
    simp only [List.map_cons, List.sum_cons, List.length_cons]
    rw [h a (List.mem_cons_self a t), ih fun x hx => h x (List.mem_cons_of_mem _ hx)]
    ring

theorem tab8_melted_length (t0 : Table) (gs : List Nat) :
    (tab8_melted (assign_bools t0 gs) gs).length = gs.length * t0.rows.length := by
  unfold tab8_melted
  rw [List.length_flatMap]
  exact sum_map_eq_length_mul _ _ _ fun g hg => by
    simp only [Function.comp_apply]
    rw [melt_year_bool_assign _ _ _ hg, List.length_map]

theorem countP_flatMap {α β : Type} (l : List α) (f : α → List β) (p : β → Bool) :
    (l.flatMap f).countP p = (l.map fun a => (f a).countP p).sum := by
  induction l with
  | nil => rfl
  | cons a t ih => simp [List.flatMap_cons, List.countP_append, ih]

theorem sum_map_nodup_single {α : Type} [DecidableEq α] (l : List α) (f : α → Nat) (g : α)
    (hnd : l.Nodup) (hg : g ∈ l) (hz : ∀ x ∈ l, x ≠ g → f x = 0) :
    (l.map f).sum = f g := by
  induction l with
  | nil => cases hg
  | cons a t ih =>
    simp only [List.map_cons, List.sum_cons]
    rcases List.mem_cons.mp hg with h1 | h1
    · subst h1
      have : (t.map f).sum = 0 := by
        apply List.sum_eq_zero
        intro x hx
        rcases List.mem_map.mp hx with ⟨b, hb, rfl⟩
        exact hz b (List.mem_cons_of_mem _ hb) fun e =>
          (List.nodup_cons.mp hnd).1 (e ▸ hb)
      omega
    · have ha : a ≠ g := fun e => (List.nodup_cons.mp hnd).1 (e ▸ h1)
      rw [hz a (List.mem_cons_self a t) ha,
        ih (List.nodup_cons.mp hnd).2 h1 fun x hx => hz x (List.mem_cons_of_mem _ hx)]
      omega

theorem bubble_count_eq (t0 : Table) (gs : List Nat) (y : Int) (g : Nat)
    (hnd : gs.Nodup) (hg : g ∈ gs) :
    bubble_count t0 gs y g =
      t0.rows.countP fun r => decide (r.publication_year = y) && has_match r g := by
  unfold bubble_count tab8_surviving
  rw [List.countP_map, List.countP_filter]
  unfold tab8_melted
  rw [countP_flatMap]
  rw [sum_map_nodup_single _ _ g hnd hg]
  · rw [melt_year_bool_assign _ _ _ hg, List.countP_map]
    apply List.countP_congr
    intro r _
    simp [Function.comp, has_match]
  · intro g' hg' hne
    rw [melt_year_bool_assign _ _ _ hg', List.countP_map]
    apply List.countP_eq_zero.mpr
    intro r _
    simp [Function.comp, hne]

/-! ## Further helper lemmas -/

theorem merge_data_snd (kw : List KwRow) (fac : List FacRow) :
    (merge_data kw fac).2 =
      fac.map fun r => ⟨r.department, split_cell r.article_number⟩ := by
  cases h : faculty_exploded (fac.map fun r => ⟨r.department, split_cell r.article_number⟩) <;>
    simp [merge_data, h]

theorem split_split (c : ArtCell) : split_cell (split_cell c) = ArtCell.naCell := by
  cases c <;> rfl

theorem split_cell_ne_str (c : ArtCell) (s : String) : split_cell c ≠ ArtCell.strCell s := by
  cases c <;> simp [split_cell]

theorem explode_tokens_na (fac : List FacRow)
    (h : ∀ r ∈ fac, r.article_number = ArtCell.naCell) :
    explode_tokens fac = [] := by
  induction fac with
  | nil => rfl
  | cons a t ih =>
    unfold explode_tokens at *
    rw [List.flatMap_cons, h a (List.mem_cons_self a t),
      ih fun r hr => h r (List.mem_cons_of_mem _ hr)]
    rfl

theorem mem_filtered_data (merged : List FlatRow) (sel : List (Option String))
    (lo hi : Int) (r : FlatRow) :
    r ∈ filtered_data merged sel lo hi ↔
      r ∈ merged ∧ r.department ∈ sel ∧ lo ≤ r.publication_year ∧ r.publication_year ≤ hi := by
  simp [filtered_data, List.mem_filter, and_assoc]

theorem foldl_add_goal (t : List FlatRow) (g : Nat) (n : Nat) :
    t.foldl (fun acc r => acc + r.goals.getD g 0) n = n + column_sum t g := by
  induction t generalizing n with
  | nil => simp [column_sum]
  | cons r ts ih =>
    simp only [List.foldl_cons, column_sum, List.map_cons, List.sum_cons] at *
    rw [ih]
    omega

/-! ## Claim theorems -/

/-- C3: a row appears in the filtered table iff its department is in the
selected department set and its publication year lies in the inclusive
range; with a single-year range exactly the rows of that year are
retained; and the goal selection never changes which rows are retained
(the rows of the shared table after the whole tab pass, including tab 8's
and tab 9's assignments, are `filtered_data`, whatever the goal
selection). -/
theorem filtered_data_retention :
    (∀ (merged : List FlatRow) (sel : List (Option String)) (lo hi : Int) (r : FlatRow),
        r ∈ filtered_data merged sel lo hi ↔
          r ∈ merged ∧ r.department ∈ sel ∧
            lo ≤ r.publication_year ∧ r.publication_year ≤ hi) ∧
    (∀ (merged : List FlatRow) (sel : List (Option String)) (y : Int) (r : FlatRow),
        r ∈ filtered_data merged sel y y ↔
          r ∈ merged ∧ r.department ∈ sel ∧ r.publication_year = y) ∧
    (∀ (merged : List FlatRow) (sel : List (Option String)) (lo hi : Int) (gs : List Nat),
        (assign_bools (assign_bools ⟨filtered_data merged sel lo hi, []⟩ gs) gs).rows =
          filtered_data merged sel lo hi) := by
  refine ⟨mem_filtered_data, ?_, ?_⟩
  · intro merged sel y r
    rw [mem_filtered_data]
    constructor
    · rintro ⟨h1, h2, h3, h4⟩
      exact ⟨h1, h2, le_antisymm h4 h3⟩
    · rintro ⟨h1, h2, h3⟩
      exact ⟨h1, h2, h3.ge, h3.le⟩
  · intro merged sel lo hi gs
    rw [rows_assign_bools, rows_assign_bools]

/-- C4: for a non-empty filter state and non-empty goal selection, tab 1
produces exactly one `(goal, total)` row per selected goal, and the total
is the exact column-wise sum of that goal's column over the filtered
table. -/
theorem goal_distribution_correct (merged : List FlatRow) (sel : List (Option String))
    (lo hi : Int) (gs : List Nat) (hsel : sel ≠ []) (hgs : gs ≠ []) :
    goal_distribution (filtered_data merged sel lo hi) gs =
      gs.map (fun g => (g, column_sum (filtered_data merged sel lo hi) g)) ∧
    (goal_distribution (filtered_data merged sel lo hi) gs).length = gs.length := by
  constructor
  · unfold goal_distribution
    have he : (fun g => (g, (filtered_data merged sel lo hi).foldl
          (fun acc r => acc + r.goals.getD g 0) 0)) =
        fun g => (g, column_sum (filtered_data merged sel lo hi) g) := by
      funext g
      rw [foldl_add_goal]
      simp
    rw [he]
  · simp [goal_distribution]

/-- C4 witness: the spec's scenario — one row with `goal1 = 2`,
`goal2 = 0` — instantiating the theorem at a concrete non-empty filter
state and goal selection. -/
theorem goal_distribution_correct_witness :
    ([some "CS"] : List (Option String)) ≠ [] ∧ ([0, 1] : List Nat) ≠ [] ∧
    (goal_distribution (filtered_data [⟨1, 2020, [2, 0], some "CS"⟩] [some "CS"] 2020 2020) [0, 1] =
        [0, 1].map (fun g =>
          (g, column_sum (filtered_data [⟨1, 2020, [2, 0], some "CS"⟩] [some "CS"] 2020 2020) g)) ∧
      (goal_distribution (filtered_data [⟨1, 2020, [2, 0], some "CS"⟩] [some "CS"] 2020 2020)
          [0, 1]).length = ([0, 1] : List Nat).length) :=
  ⟨by decide, by decide,
    goal_distribution_correct [⟨1, 2020, [2, 0], some "CS"⟩] [some "CS"] 2020 2020 [0, 1]
      (by decide) (by decide)⟩

/-- C9: with an empty goal selection the rerun stops right after the
filter: `st.error` plus `st.stop()` — the pipeline returns the blocking
error message and builds none of the nine summary tables. -/
theorem empty_goal_selection_aborts (merged : List FlatRow) (sel : List (Option String))
    (lo hi : Int) :
    run_dashboard merged sel lo hi [] =
      Except.error "Please select at least one Sustainability Goal." := rfl

/-- C7: every `(department, goal)` entry of tab 6 carries
`goal_sum / department_grand_total`; when the grand total is not zero this
is the finite exact ratio, and when it is zero the entry is the undefined
float (`0/0 = NaN`) — an ordinary cell value, never a raised arithmetic
error (the transform is total: it always yields one entry per department
per selected goal). -/
theorem dept_goal_proportion_correct (t : List FlatRow) (gs : List Nat) (d : String) (g : Nat)
    (hd : d ∈ dept_keys t) (hg : g ∈ gs) :
    (d, g, pdiv (dept_goal_sum t d g) (dept_total t gs d)) ∈ dept_goal_melted t gs ∧
    (dept_total t gs d ≠ 0 →
      pdiv (dept_goal_sum t d g) (dept_total t gs d) =
        PdFloat.val ((dept_goal_sum t d g : ℚ) / (dept_total t gs d : ℚ))) ∧
    (dept_total t gs d = 0 →
      pdiv (dept_goal_sum t d g) (dept_total t gs d) = PdFloat.nan) ∧
    (dept_goal_melted t gs).length = gs.length * (dept_keys t).length := by
  refine ⟨?_, ?_, ?_, ?_⟩
  · unfold dept_goal_melted
    rw [List.mem_flatMap]
    exact ⟨g, hg, List.mem_map.mpr ⟨d, hd, rfl⟩⟩
  · intro h
    unfold pdiv
    rw [if_neg (by exact_mod_cast h)]
  · intro h
    have hmem : dept_goal_sum t d g ∈ gs.map fun g' => dept_goal_sum t d g' :=
      List.mem_map.mpr ⟨g, hg, rfl⟩
    have hle : dept_goal_sum t d g ≤ dept_total t gs d :=
      List.single_le_sum (fun x _ => Nat.zero_le x) _ hmem
    have hsum : dept_goal_sum t d g = 0 := by omega
    simp [pdiv, h, hsum]
  · unfold dept_goal_melted
    rw [List.length_flatMap]
    exact sum_map_eq_length_mul _ _ _ fun g' _ => by
      simp

/-- C7 witness: the spec's scenario — department "CS" with goal sums
`{goal1: 2, goal2: 0}`, grand total 2 → proportions `{1.0, 0.0}`. -/
theorem dept_goal_proportion_correct_witness :
    "CS" ∈ dept_keys [⟨1, 2020, [2, 0], some "CS"⟩] ∧ (0 : Nat) ∈ ([0, 1] : List Nat) ∧
    (("CS", 0, pdiv (dept_goal_sum [⟨1, 2020, [2, 0], some "CS"⟩] "CS" 0)
          (dept_total [⟨1, 2020, [2, 0], some "CS"⟩] [0, 1] "CS")) ∈
        dept_goal_melted [⟨1, 2020, [2, 0], some "CS"⟩] [0, 1] ∧
      (dept_total [⟨1, 2020, [2, 0], some "CS"⟩] [0, 1] "CS" ≠ 0 →
        pdiv (dept_goal_sum [⟨1, 2020, [2, 0], some "CS"⟩] "CS" 0)
            (dept_total [⟨1, 2020, [2, 0], some "CS"⟩] [0, 1] "CS") =
          PdFloat.val ((dept_goal_sum [⟨1, 2020, [2, 0], some "CS"⟩] "CS" 0 : ℚ) /
            (dept_total [⟨1, 2020, [2, 0], some "CS"⟩] [0, 1] "CS" : ℚ))) ∧
      (dept_total [⟨1, 2020, [2, 0], some "CS"⟩] [0, 1] "CS" = 0 →
        pdiv (dept_goal_sum [⟨1, 2020, [2, 0], some "CS"⟩] "CS" 0)
            (dept_total [⟨1, 2020, [2, 0], some "CS"⟩] [0, 1] "CS") = PdFloat.nan) ∧
      (dept_goal_melted [⟨1, 2020, [2, 0], some "CS"⟩] [0, 1]).length =
        ([0, 1] : List Nat).length * (dept_keys [⟨1, 2020, [2, 0], some "CS"⟩]).length) :=
  ⟨by decide, by decide,
    dept_goal_proportion_correct [⟨1, 2020, [2, 0], some "CS"⟩] [0, 1] "CS" 0
      (by decide) (by decide)⟩

/-- C1 counterexample: a faculty table with the unparseable
article-number token "abc" does NOT make `merge_data` silently drop that
row and complete — `astype(int)` raises, so the merge aborts with no
joined table at all (`none`), refuting "completes without failing". -/
theorem merge_malformed_token_counterexample :
    (merge_data [⟨1, 2020, [2, 0]⟩] [⟨"CS", ArtCell.strCell "abc"⟩]).1 = none := rfl

/-- C1 amended: a faculty row holding any token that does not parse as an
integer makes `merge_data` raise (the element-wise `astype(int)`
conversion fails), producing no joined table; only missing/`NaN` entries
are silently dropped, not malformed tokens. -/
theorem merge_malformed_token_raises (kw : List KwRow) (fac : List FacRow)
    (r : FacRow) (s tok : String) (hr : r ∈ fac) (hcell : r.article_number = ArtCell.strCell s)
    (htok : tok ∈ py_split s) (hbad : parse_int tok = none) :
    (merge_data kw fac).1 = none := by
  have hmem : (r.department, tok) ∈
      explode_tokens (fac.map fun r' => ⟨r'.department, split_cell r'.article_number⟩) := by
    unfold explode_tokens
    rw [List.mem_flatMap]
    refine ⟨⟨r.department, split_cell r.article_number⟩, List.mem_map.mpr ⟨r, hr, rfl⟩, ?_⟩
    rw [hcell]
    show (r.department, tok) ∈ (py_split s).map fun tk => (r.department, tk)
    exact List.mem_map.mpr ⟨tok, htok, rfl⟩
  have hnone : faculty_exploded
      (fac.map fun r' => ⟨r'.department, split_cell r'.article_number⟩) = none :=
    traverse_tokens_eq_none hmem hbad
  simp [merge_data, hnone]

/-- C1 witness for the amended claim at the token "abc". -/
theorem merge_malformed_token_raises_witness :
    ("abc" ∈ py_split "abc" ∧ parse_int "abc" = none) ∧
      (merge_data [] [⟨"CS", ArtCell.strCell "abc"⟩]).1 = none :=
  ⟨⟨by decide, rfl⟩,
    merge_malformed_token_raises [] [⟨"CS", ArtCell.strCell "abc"⟩]
      ⟨"CS", ArtCell.strCell "abc"⟩ "abc" "abc" (by decide) rfl (by decide) rfl⟩

/-- C8: when the merge succeeds, the flat table has one row per keyword
row per matching exploded faculty entry (and exactly one when there is no
match) — so its length is at least the keyword table's length, with no
duplication beyond the faculty fan-out; and the spec's scenario: a
faculty row "1, 2" with keyword rows for articles 1 and 2 yields exactly
two flat rows, both in department "CS". -/
theorem merge_fanout_guarantee :
    (∀ (kw : List KwRow) (fac : List FacRow) (out : List FlatRow) (fe : List (String × Int)),
        (merge_data kw fac).1 = some out →
        faculty_exploded ((merge_data kw fac).2) = some fe →
        (∃ k, k ∈ kw ∧ 2 ≤ fe.countP fun p => decide (p.2 = k.article_number)) →
        kw.length ≤ out.length ∧
        out.length =
          (kw.map fun k => max 1 (fe.countP fun p => decide (p.2 = k.article_number))).sum) ∧
    (merge_data [⟨1, 2020, [2]⟩, ⟨2, 2021, [0]⟩] [⟨"CS", ArtCell.strCell "1, 2"⟩]).1 =
      some [⟨1, 2020, [2], some "CS"⟩, ⟨2, 2021, [0], some "CS"⟩] := by
  constructor
  · intro kw fac out fe h1 h2 _
    rw [merge_data_snd] at h2
    have hmerge : (merge_data kw fac).1 = some (left_merge kw fe) := by
      simp [merge_data, h2]
    rw [hmerge] at h1
    obtain rfl : left_merge kw fe = out := Option.some.inj h1
    refine ⟨?_, left_merge_length kw fe⟩
    rw [left_merge_length]
    exact length_le_sum_map_max_one kw _
  · rfl

/-- C8 witness: article 1 is associated with two departments, so the
hypothesis of ≥2 associations holds and the flat table has 2 ≥ 1 rows. -/
theorem merge_fanout_guarantee_witness :
    (([⟨1, 2020, [1]⟩] : List KwRow).length ≤
        ([⟨1, 2020, [1], some "CS"⟩, ⟨1, 2020, [1], some "Math"⟩] : List FlatRow).length) ∧
      ([⟨1, 2020, [1], some "CS"⟩, ⟨1, 2020, [1], some "Math"⟩] : List FlatRow).length =
        (([⟨1, 2020, [1]⟩] : List KwRow).map fun k =>
          max 1 (([("CS", 1), ("Math", 1)] : List (String × Int)).countP
            fun p => decide (p.2 = k.article_number))).sum :=
  merge_fanout_guarantee.1 [⟨1, 2020, [1]⟩]
    [⟨"CS", ArtCell.strCell "1"⟩, ⟨"Math", ArtCell.strCell "1"⟩]
    [⟨1, 2020, [1], some "CS"⟩, ⟨1, 2020, [1], some "Math"⟩]
    [("CS", 1), ("Math", 1)] rfl rfl ⟨⟨1, 2020, [1]⟩, by decide, by decide⟩

/-- C10 counterexample: after one `merge_data` call has mutated the
faculty table, a second call on the mutated table does NOT fail — the
`.str.split` accessor turns the list cells into `NaN`, `dropna` removes
them all, and the merge completes, silently yielding a table whose every
department is null. -/
theorem merge_second_call_counterexample :
    (merge_data [⟨1, 2020, [2]⟩]
        ((merge_data [⟨1, 2020, [2]⟩] [⟨"CS", ArtCell.strCell "1"⟩]).2)).1 =
      some [⟨1, 2020, [2], none⟩] := rfl

/-- C10 amended: `merge_data` does mutate its faculty argument in place —
every row's `article_number` cell is replaced by its split form, so after
the call no cell still holds the original string encoding — but a second
call on the mutated table does not fail: it completes and silently
returns the keyword rows with all-null departments (every faculty
association lost). -/
theorem merge_data_mutates_argument :
    (∀ (kw : List KwRow) (fac : List FacRow) (r : FacRow), r ∈ fac →
        (⟨r.department, split_cell r.article_number⟩ : FacRow) ∈ (merge_data kw fac).2) ∧
    (∀ (kw : List KwRow) (fac : List FacRow) (c : ArtCell),
        c ∈ ((merge_data kw fac).2.map fun r => r.article_number) →
        ∀ s, c ≠ ArtCell.strCell s) ∧
    (∀ (kw kw' : List KwRow) (fac : List FacRow),
        (merge_data kw' ((merge_data kw fac).2)).1 =
          some (kw'.map fun k => ⟨k.article_number, k.publication_year, k.goals, none⟩)) := by
  refine ⟨?_, ?_, ?_⟩
  · intro kw fac r hr
    rw [merge_data_snd]
    exact List.mem_map.mpr ⟨r, hr, rfl⟩
  · intro kw fac c hc s
    rw [merge_data_snd, List.map_map] at hc
    rcases List.mem_map.mp hc with ⟨r, _, rfl⟩
    exact split_cell_ne_str r.article_number s
  · intro kw kw' fac
    rw [merge_data_snd]
    have hcells : ∀ r ∈ ((fac.map fun r =>
          (⟨r.department, split_cell r.article_number⟩ : FacRow)).map fun r =>
            (⟨r.department, split_cell r.article_number⟩ : FacRow)),
        r.article_number = ArtCell.naCell := by
      intro r hr
      rw [List.map_map] at hr
      rcases List.mem_map.mp hr with ⟨x, _, rfl⟩
      exact split_split x.article_number
    have hfe : faculty_exploded ((fac.map fun r =>
          (⟨r.department, split_cell r.article_number⟩ : FacRow)).map fun r =>
            (⟨r.department, split_cell r.article_number⟩ : FacRow)) = some [] := by
      unfold faculty_exploded
      rw [explode_tokens_na _ hcells]
      rfl
    simp only [merge_data]
    rw [hfe]
    simp [left_merge_nil_fac]

/-- C10 witness: one faculty row with the string cell "1"; after the
first call the cell is the token list, and the second call returns the
keyword row with a null department. -/
theorem merge_data_mutates_argument_witness :
    ((⟨"CS", split_cell (ArtCell.strCell "1")⟩ : FacRow) ∈
        (merge_data [⟨1, 2020, [2]⟩] [⟨"CS", ArtCell.strCell "1"⟩]).2) ∧
      (merge_data [⟨1, 2020, [2]⟩]
          ((merge_data [⟨1, 2020, [2]⟩] [⟨"CS", ArtCell.strCell "1"⟩]).2)).1 =
        some (([⟨1, 2020, [2]⟩] : List KwRow).map fun k =>
          (⟨k.article_number, k.publication_year, k.goals, none⟩ : FlatRow)) :=
  ⟨merge_data_mutates_argument.1 [⟨1, 2020, [2]⟩] [⟨"CS", ArtCell.strCell "1"⟩]
      ⟨"CS", ArtCell.strCell "1"⟩ (by decide),
    merge_data_mutates_argument.2.2 [⟨1, 2020, [2]⟩] [⟨1, 2020, [2]⟩]
      [⟨"CS", ArtCell.strCell "1"⟩]⟩

/-- C5 counterexample: a null-department row passes the filter (the claim
is right about retention) but transform 4
(`dept_article_distribution`, pandas `value_counts`) produces NO category
for it at all — the null department is dropped, not "treated as its own
category". -/
theorem null_department_groupby_counterexample :
    filtered_data [⟨1, 2020, [2], none⟩] [none] 2020 2020 = [⟨1, 2020, [2], none⟩] ∧
      dept_article_distribution [⟨1, 2020, [2], none⟩] = [] := ⟨rfl, rfl⟩

/-- C5 amended: flat rows with a null department are retained through
filtering exactly when the selection contains the null value, and no
group-by crashes — but the group-by-department transforms (3, 4, 5, 6, 9)
silently drop the null-department rows rather than giving them their own
category: every group key is a department actually present on some row
(`dept_keys` backs tabs 3/5/6), every `value_counts` entry counts only
rows of its own non-null department, and every treemap key comes from a
surviving non-null-department melted row. -/
theorem null_department_retained_groupby_drops :
    (∀ (merged : List FlatRow) (sel : List (Option String)) (lo hi : Int) (r : FlatRow),
        r.department = none →
        (r ∈ filtered_data merged sel lo hi ↔
          r ∈ merged ∧ none ∈ sel ∧ lo ≤ r.publication_year ∧ r.publication_year ≤ hi)) ∧
    (∀ (t : List FlatRow) (d : String), d ∈ dept_keys t → ∃ r ∈ t, r.department = some d) ∧
    (∀ (t : List FlatRow) (p : String × Nat), p ∈ dept_article_distribution t →
        (∃ r ∈ t, r.department = some p.1) ∧
        p.2 = t.countP fun r => decide (r.department = some p.1)) ∧
    (∀ (t1 : Table) (gs : List Nat) (p : (String × Nat) × Nat), p ∈ treemap_data t1 gs →
        (some p.1.1, p.1.2) ∈ tab9_surviving t1 gs) := by
  refine ⟨?_, ?_, ?_, ?_⟩
  · intro merged sel lo hi r hdep
    rw [mem_filtered_data, hdep]
  · intro t d hd
    unfold dept_keys at hd
    rw [mem_sortLe, List.mem_dedup, List.mem_filterMap] at hd
    exact hd
  · intro t p hp
    unfold dept_article_distribution at hp
    rw [mem_sortLe, List.mem_map] at hp
    rcases hp with ⟨d, hd, rfl⟩
    rw [List.mem_dedup, List.mem_filterMap] at hd
    exact ⟨hd, rfl⟩
  · intro t1 gs p hp
    unfold treemap_data at hp
    rw [List.mem_map] at hp
    rcases hp with ⟨k, hk, rfl⟩
    rw [mem_sortLe, List.mem_dedup, List.mem_filterMap] at hk
    rcases hk with ⟨e, he, hmap⟩
    rcases e with ⟨od, g⟩
    cases od with
    | none => cases hmap
    | some d =>
      simp only [Option.map_some] at hmap
      cases hmap
      exact he

/-- C5 witness: two rows, one in "CS" and one with a null department; the
"CS" entry of `value_counts` is a real department counting only its own
row. -/
theorem null_department_retained_groupby_drops_witness :
    (("CS", 1) ∈ dept_article_distribution
        [⟨1, 2020, [2], some "CS"⟩, ⟨2, 2021, [0], none⟩]) ∧
      ((∃ r ∈ ([⟨1, 2020, [2], some "CS"⟩, ⟨2, 2021, [0], none⟩] : List FlatRow),
          r.department = some ("CS", 1).1) ∧
        ("CS", 1).2 = ([⟨1, 2020, [2], some "CS"⟩, ⟨2, 2021, [0], none⟩] : List FlatRow).countP
          fun r => decide (r.department = some ("CS", 1).1)) :=
  ⟨by decide,
    null_department_retained_groupby_drops.2.2.1
      [⟨1, 2020, [2], some "CS"⟩, ⟨2, 2021, [0], none⟩] ("CS", 1) (by decide)⟩

/-- C2 counterexample: running tab 8's boolean-column derivation loop on
a concrete filtered table changes the shared table — the boolean column
is written into it, so its column set is not unchanged. -/
theorem tab8_mutates_filtered_counterexample :
    assign_bools ⟨[⟨1, 2020, [2], some "CS"⟩], []⟩ [0] ≠
      (⟨[⟨1, 2020, [2], some "CS"⟩], []⟩ : Table) := by decide

/-- C2 amended: the boolean derivation of tabs 8/9 does NOT operate on a
copy: it writes one boolean column per selected goal into the shared
filtered table (a non-empty goal selection always changes the table).
The row data is untouched and columns outside the selection are
preserved, which is why later transforms (which name their columns
explicitly) still compute correct values. -/
theorem bool_derivation_mutates_shared_table :
    (∀ (t : Table) (gs : List Nat), (assign_bools t gs).rows = t.rows) ∧
    (∀ (t : Table) (gs : List Nat) (g : Nat), g ∈ gs →
        get_bool_col (assign_bools t gs) g = some (t.rows.map fun r => has_match r g)) ∧
    (∀ (t : Table) (gs : List Nat) (g : Nat), g ∉ gs →
        get_bool_col (assign_bools t gs) g = get_bool_col t g) ∧
    (∀ (fd : List FlatRow) (gs : List Nat), gs ≠ [] →
        assign_bools ⟨fd, []⟩ gs ≠ ⟨fd, []⟩) := by
  refine ⟨rows_assign_bools, get_assign_bools_of_mem, get_assign_bools_of_not_mem, ?_⟩
  intro fd gs hgs heq
  cases gs with
  | nil => exact hgs rfl
  | cons g0 gs' =>
    have h := get_assign_bools_of_mem ⟨fd, []⟩ (g0 :: gs') g0 (List.mem_cons_self _ _)
    rw [heq] at h
    simp [get_bool_col, lookup_col] at h

/-- C2 witness: one row with a positive goal-0 count; after the loop the
shared table carries the `goal_bool` column `[true]`. -/
theorem bool_derivation_mutates_shared_table_witness :
    get_bool_col (assign_bools ⟨[⟨1, 2020, [2], some "CS"⟩], []⟩ [0]) 0 =
      some (([⟨1, 2020, [2], some "CS"⟩] : List FlatRow).map fun r => has_match r 0) :=
  bool_derivation_mutates_shared_table.2.1 ⟨[⟨1, 2020, [2], some "CS"⟩], []⟩ [0] 0 (by decide)

/-- C6: tab 8's boolean is true exactly when the goal's count is
positive; the melt emits one row per table row (article occurrence) per
selected goal; and after discarding non-matching rows the
`(year, goal)` group size counts exactly the rows of that year whose
count for that goal is positive. -/
theorem bubble_transform_correct :
    (∀ (r : FlatRow) (g : Nat), has_match r g = true ↔ 0 < r.goals.getD g 0) ∧
    (∀ (t0 : Table) (gs : List Nat),
        (tab8_melted (assign_bools t0 gs) gs).length = gs.length * t0.rows.length) ∧
    (∀ (t0 : Table) (gs : List Nat) (y : Int) (g : Nat), gs.Nodup → g ∈ gs →
        bubble_count t0 gs y g =
          t0.rows.countP fun r => decide (r.publication_year = y) && has_match r g) := by
  refine ⟨?_, tab8_melted_length, ?_⟩
  · intro r g
    simp [has_match]
  · intro t0 gs y g hnd hg
    exact bubble_count_eq t0 gs y g hnd hg

/-- C6 witness: the spec's scenario — `goal1 = 2` (index 0) matches,
`goal2 = 0` (index 1) does not; the (2020, goal 0) bubble counts exactly
the matching row. -/
theorem bubble_transform_correct_witness :
    bubble_count ⟨[⟨1, 2020, [2, 0], some "CS"⟩], []⟩ [0, 1] 2020 0 =
      (⟨[⟨1, 2020, [2, 0], some "CS"⟩], []⟩ : Table).rows.countP
        fun r => decide (r.publication_year = 2020) && has_match r 0 :=
  bubble_transform_correct.2.2 ⟨[⟨1, 2020, [2, 0], some "CS"⟩], []⟩ [0, 1] 2020 0
    (by decide) (by decide)

end SustainabilityDashboard
